import Mathlib

/-!
Verification development for the firenzeme/web-infra repository.

Part 1 models the Pre Token Generation Lambda handler embedded as the string
literal PRE_TOKEN_GENERATION_CODE in src/lib/cognito-lambda-stack.ts
(lines 12-40).  The handler reads the attribute "custom:domainId" from
event.request.userAttributes, coalesces falsy values to null via the
JavaScript expression `... || null`, and overwrites event.response with a
claims override structure that sets the domainId claim in both the
access-token and the ID-token claim sets.

Profile attributes are string-valued, so the only falsy attribute value is
the empty string; `jsOrNull` models `s || null` on a possibly-absent string.
-/

structure CognitoRequest where
  userAttributes : List (String × String)
deriving DecidableEq

structure ClaimsToAddOrOverride where
  domainId : Option String
deriving DecidableEq

structure TokenGenerationDetails where
  claimsToAddOrOverride : ClaimsToAddOrOverride
deriving DecidableEq

structure ClaimsAndScopeOverrideDetails where
  accessTokenGeneration : TokenGenerationDetails
  idTokenGeneration : TokenGenerationDetails
deriving DecidableEq

structure CognitoResponse where
  claimsAndScopeOverrideDetails : ClaimsAndScopeOverrideDetails
deriving DecidableEq

structure CognitoEvent where
  request : CognitoRequest
  response : Option CognitoResponse
deriving DecidableEq

/-- JavaScript object property access `obj[key]` on a string-keyed mapping:
the value at the first matching key, `undefined` (none) if absent. -/
def getAttr : List (String × String) → String → Option String
  | [], _ => none
  | (k, v) :: rest, key => if k = key then some v else getAttr rest key

/-- The JavaScript expression `x || null` for `x : string | undefined`:
an absent or falsy (empty-string) value becomes null. -/
def jsOrNull : Option String → Option String
  | some s => if s = "" then none else some s
  | none => none

/-- The handler of PRE_TOKEN_GENERATION_CODE
(src/lib/cognito-lambda-stack.ts lines 13-39): reads
`event.request.userAttributes["custom:domainId"] || null`, overwrites
`event.response` with the claims override structure setting domainId in both
token generations, and returns the event.  It is a total function: no code
path throws. -/
def handler (event : CognitoEvent) : CognitoEvent :=
  let domainId := jsOrNull (getAttr event.request.userAttributes "custom:domainId")
  { event with
    response := some
      { claimsAndScopeOverrideDetails :=
        { accessTokenGeneration := { claimsToAddOrOverride := { domainId := domainId } }
        , idTokenGeneration := { claimsToAddOrOverride := { domainId := domainId } } } } }

/-- The domainId override placed in the access-token claim set of the event's
response, if a response is present. -/
def accessDomainId (e : CognitoEvent) : Option (Option String) :=
  e.response.map
    fun r => r.claimsAndScopeOverrideDetails.accessTokenGeneration.claimsToAddOrOverride.domainId

/-- The domainId override placed in the ID-token claim set of the event's
response, if a response is present. -/
def idDomainId (e : CognitoEvent) : Option (Option String) :=
  e.response.map
    fun r => r.claimsAndScopeOverrideDetails.idTokenGeneration.claimsToAddOrOverride.domainId

/-- C1 counterexample: an event whose profile-attribute mapping includes
custom:domainId with value "" (a concrete value V).  The handler sets both
claim overrides to null, not to "", because of the falsy coalescing
`... || null` — so the claim "the override is set to V" fails at V = "". -/
theorem handler_empty_value_not_preserved :
    getAttr [("custom:domainId", "")] "custom:domainId" = some ""
    ∧ accessDomainId (handler ⟨⟨[("custom:domainId", "")]⟩, none⟩) = some none
    ∧ idDomainId (handler ⟨⟨[("custom:domainId", "")]⟩, none⟩) = some none
    ∧ (some none : Option (Option String)) ≠ some (some "") := by
  refine ⟨by decide, by decide, by decide, by decide⟩

/-- C1 (amended): for every token-issuance event whose profile-attribute
mapping includes custom:domainId with a non-empty value V, the handler
returns a response that sets the domainId override to V in both the
access-token and the ID-token claim sets. -/
theorem handler_sets_domainId (attrs : List (String × String))
    (r0 : Option CognitoResponse) (V : String) (hne : V ≠ "")
    (hget : getAttr attrs "custom:domainId" = some V) :
    accessDomainId (handler ⟨⟨attrs⟩, r0⟩) = some (some V)
    ∧ idDomainId (handler ⟨⟨attrs⟩, r0⟩) = some (some V) := by
  constructor <;> simp [handler, accessDomainId, idDomainId, jsOrNull, hget, hne]

/-- C1 witness: the spec scenario, attribute value "acme". -/
theorem handler_sets_domainId_witness :
    accessDomainId (handler ⟨⟨[("custom:domainId", "acme")]⟩, none⟩) = some (some "acme")
    ∧ idDomainId (handler ⟨⟨[("custom:domainId", "acme")]⟩, none⟩) = some (some "acme") :=
  handler_sets_domainId [("custom:domainId", "acme")] none "acme" (by decide) (by decide)

/-- C4: for every event whose profile-attribute mapping omits
custom:domainId, the handler (a total function — the call cannot fail)
sets the domainId override to null in both token claim sets. -/
theorem handler_missing_attr_null (attrs : List (String × String))
    (r0 : Option CognitoResponse)
    (h : getAttr attrs "custom:domainId" = none) :
    accessDomainId (handler ⟨⟨attrs⟩, r0⟩) = some none
    ∧ idDomainId (handler ⟨⟨attrs⟩, r0⟩) = some none := by
  constructor <;> simp [handler, accessDomainId, idDomainId, jsOrNull, h]

/-- C4 witness: the spec scenario, an event with no custom:domainId
attribute. -/
theorem handler_missing_attr_null_witness :
    accessDomainId (handler ⟨⟨[("email", "a@b.co")]⟩, none⟩) = some none
    ∧ idDomainId (handler ⟨⟨[("email", "a@b.co")]⟩, none⟩) = some none :=
  handler_missing_attr_null [("email", "a@b.co")] none (by decide)

/-- C5: the handler is a pure function of the input event and overwrites
event.response wholesale from event.request, so running it twice on the
same event yields the same result as running it once. -/
theorem handler_idempotent (e : CognitoEvent) : handler (handler e) = handler e := by
  cases e; rfl

/-- C10: if the profile-attribute mapping contains custom:domainId with the
empty-string value (the only falsy string), the handler sets both claim
overrides to null, not to the empty string: presence with an empty value is
indistinguishable from absence at the handler's output. -/
theorem handler_empty_attr_null (attrs : List (String × String))
    (r0 : Option CognitoResponse)
    (h : getAttr attrs "custom:domainId" = some "") :
    accessDomainId (handler ⟨⟨attrs⟩, r0⟩) = some none
    ∧ idDomainId (handler ⟨⟨attrs⟩, r0⟩) = some none
    ∧ (some none : Option (Option String)) ≠ some (some "") := by
  refine ⟨?_, ?_, by decide⟩ <;>
    simp [handler, accessDomainId, idDomainId, jsOrNull, h]

/-- C10 witness: the concrete event with custom:domainId mapped to "". -/
theorem handler_empty_attr_null_witness :
    accessDomainId (handler ⟨⟨[("custom:domainId", "")]⟩, none⟩) = some none
    ∧ idDomainId (handler ⟨⟨[("custom:domainId", "")]⟩, none⟩) = some none
    ∧ (some none : Option (Option String)) ≠ some (some "") :=
  handler_empty_attr_null [("custom:domainId", "")] none (by decide)

/-!
Part 2 models the git source-synchronization step of the instance bootstrap
script.  Two variants of the deploy-api script exist in the repository:

* the active stack src/lib/web-infra-stack.ts (imported by the CDK app
  entrypoint), whose script at lines 113-121 does, when a clone exists,
  `git remote set-url origin "$REPO_URL"` followed by `git pull origin main`
  — no branch argument, no hard reset;
* the V4 stack variant (src/unnamed/part_000, lines 230-264), whose script
  resolves BRANCH="${1:-$DEFAULT_BRANCH}" with DEFAULT_BRANCH main for prod
  and dev otherwise, and when a clone exists does set-url, `git fetch origin
  "$BRANCH"`, `git reset --hard "origin/$BRANCH"`.

Git commands are embedded as data; their effect is given by a small git
semantics over an abstract repository state.  `remote` maps a branch name to
the commit at its remote tip.  `git pull` (fetch + merge) is modelled
optimistically — a clean merge advances head to the remote tip — except in
the standard case git itself aborts: uncommitted local changes that conflict
with the incoming changes ("Your local changes ... would be overwritten by
merge").  `git reset --hard origin/B` always succeeds and discards local
drift.  The ref "origin/$BRANCH" is carried as the pair (remote name,
branch).
-/

inductive GitCmd where
  | clone (url dir : String)
  | cloneBranch (branch url dir : String)
  | setUrl (remoteName url : String)
  | fetch (remoteName branch : String)
  | pull (remoteName branch : String)
  | resetHard (remoteName branch : String)
deriving DecidableEq

structure RepoState where
  hasGitDir : Bool
  dirty : Bool
  conflict : Bool
  head : Nat
  originUrl : String
deriving DecidableEq

def execGit (remote : String → Nat) : GitCmd → RepoState → Except String RepoState
  | GitCmd.clone url _, _ =>
      Except.ok { hasGitDir := true, dirty := false, conflict := false
                , head := remote "main", originUrl := url }
  | GitCmd.cloneBranch b url _, _ =>
      Except.ok { hasGitDir := true, dirty := false, conflict := false
                , head := remote b, originUrl := url }
  | GitCmd.setUrl _ url, s => Except.ok { s with originUrl := url }
  | GitCmd.fetch _ _, s => Except.ok s
  | GitCmd.pull _ b, s =>
      if s.dirty && s.conflict then
        Except.error "error: Your local changes would be overwritten by merge"
      else Except.ok { s with head := remote b }
  | GitCmd.resetHard _ b, s =>
      Except.ok { s with head := remote b, dirty := false, conflict := false }

def runGit (remote : String → Nat) : List GitCmd → RepoState → Except String RepoState
  | [], s => Except.ok s
  | c :: cs, s =>
      match execGit remote c s with
      | Except.ok s2 => runGit remote cs s2
      | Except.error e => Except.error e

/-- REPO_URL="https://${TOKEN}@github.com/firenzeme/web-api.git" . -/
def repoUrl (token : String) : String :=
  "https://" ++ token ++ "@github.com/firenzeme/web-api.git"

/-- The source-synchronization step of the active deploy-api script
(src/lib/web-infra-stack.ts lines 113-121): if no .git directory exists,
clone; else set the remote URL and `git pull origin main`.  The generated
script does not use the environment name (first parameter) or any argument
in this step. -/
def activeDeploySync (_envName token : String) (hasGitDir : Bool) : List GitCmd :=
  if !hasGitDir then
    [GitCmd.clone (repoUrl token) "/home/ec2-user/firenze-api"]
  else
    [GitCmd.setUrl "origin" (repoUrl token), GitCmd.pull "origin" "main"]

/-- The source-synchronization step of the V4 deploy-api script variant
(src/unnamed/part_000 lines 255-264): if no .git directory exists, clone the
resolved branch; else set the remote URL, fetch the branch, and hard-reset
to origin/branch. -/
def v4DeploySync (token branch : String) (hasGitDir : Bool) : List GitCmd :=
  if !hasGitDir then
    [GitCmd.cloneBranch branch (repoUrl token) "/home/ec2-user/firenze-api"]
  else
    [GitCmd.setUrl "origin" (repoUrl token), GitCmd.fetch "origin" branch,
     GitCmd.resetHard "origin" branch]

/-- DEFAULT_BRANCH in the V4 deploy script (src/unnamed/part_000 line 230):
main for the prod environment, dev for every other environment. -/
def defaultBranch (envName : String) : String :=
  if envName = "prod" then "main" else "dev"

/-- BRANCH="${1:-$DEFAULT_BRANCH}" in the V4 deploy script
(src/unnamed/part_000 line 231): the first argument when supplied and
non-empty, else the environment default. -/
def resolveBranch (arg : Option String) (envName : String) : String :=
  match arg with
  | some b => if b = "" then defaultBranch envName else b
  | none => defaultBranch envName

/-- C2 counterexample: on an instance with an existing clone, the active
deploy script's sync step is set-url followed by `git pull origin main`.
At a concrete conflicting dirty state the run fails (the claim says it does
not fail); at a non-conflicting dirty state the merge leaves the local
drift in place (dirty stays true — the tree is not hard-reset); and the
command list contains no hard reset at all. -/
theorem active_sync_dirty_fails :
    runGit (fun _ => 5) (activeDeploySync "dev" "tok" true) ⟨true, true, true, 3, "old"⟩
      = Except.error "error: Your local changes would be overwritten by merge"
    ∧ runGit (fun _ => 5) (activeDeploySync "dev" "tok" true) ⟨true, true, false, 3, "old"⟩
      = Except.ok ⟨true, true, false, 5, repoUrl "tok"⟩
    ∧ GitCmd.resetHard "origin" "main" ∉ activeDeploySync "dev" "tok" true := by
  refine ⟨rfl, rfl, by decide⟩

/-- C2 (amended): the claimed behavior — update the remote URL and
hard-reset to the remote tip of the resolved branch, never merging and
never failing, convergent regardless of prior drift — holds for the V4
deploy script variant (src/unnamed/part_000).  From any state with an
existing clone, its sync step succeeds and yields the converged state,
and re-running it from that state yields the same state again. -/
theorem v4_sync_convergent (remote : String → Nat) (token branch : String)
    (s : RepoState) (h : s.hasGitDir = true) :
    runGit remote (v4DeploySync token branch s.hasGitDir) s
      = Except.ok ⟨true, false, false, remote branch, repoUrl token⟩
    ∧ runGit remote (v4DeploySync token branch true)
        ⟨true, false, false, remote branch, repoUrl token⟩
      = Except.ok ⟨true, false, false, remote branch, repoUrl token⟩ := by
  rw [h]
  constructor <;> simp [v4DeploySync, runGit, execGit, h]

/-- C2 witness: a concrete dirty, conflicted clone converges to the remote
tip of the requested branch under the V4 sync. -/
theorem v4_sync_convergent_witness :
    runGit (fun _ => 7) (v4DeploySync "tok" "dev" true) ⟨true, true, true, 3, "old"⟩
      = Except.ok ⟨true, false, false, 7, repoUrl "tok"⟩
    ∧ runGit (fun _ => 7) (v4DeploySync "tok" "dev" true) ⟨true, false, false, 7, repoUrl "tok"⟩
      = Except.ok ⟨true, false, false, 7, repoUrl "tok"⟩ :=
  v4_sync_convergent (fun _ => 7) "tok" "dev" ⟨true, true, true, 3, "old"⟩ rfl

/-- C3 counterexample: for the non-prod environment "dev" with no override
argument, the active deploy script's sync step pulls the branch "main", not
the claimed non-production default "dev" — the generated script contains no
branch resolution at all. -/
theorem active_sync_ignores_env_branch :
    activeDeploySync "dev" "tok" true
      = [GitCmd.setUrl "origin" (repoUrl "tok"), GitCmd.pull "origin" "main"]
    ∧ ("main" : String) ≠ "dev" := by
  refine ⟨rfl, by decide⟩

/-- C3 (amended): the claimed branch resolution is implemented by the V4
deploy script variant (src/unnamed/part_000): a supplied non-empty first
argument is the resolved branch; with no argument the prod environment
resolves to main and any other environment resolves to dev. -/
theorem branch_resolution (envName b : String) (hb : b ≠ "")
    (e2 : String) (h2 : e2 ≠ "prod") :
    resolveBranch (some b) envName = b
    ∧ resolveBranch none "prod" = "main"
    ∧ resolveBranch none e2 = "dev" := by
  refine ⟨?_, rfl, ?_⟩ <;> simp [resolveBranch, defaultBranch, hb, h2]

/-- C3 witness: explicit argument "feature-x" wins in environment "staging";
no argument resolves to main for prod and dev for staging. -/
theorem branch_resolution_witness :
    resolveBranch (some "feature-x") "staging" = "feature-x"
    ∧ resolveBranch none "prod" = "main"
    ∧ resolveBranch none "staging" = "dev" :=
  branch_resolution "staging" "feature-x" (by decide) "staging" (by decide)

/-!
Part 3 models the fail-fast execution of the deploy-api script created by
src/lib/web-infra-stack.ts (lines 86-136).  The script begins with
`set -e`, and the inner `su - ec2-user -c "set -e ..."` block does too, so
the whole procedure is a flat sequence of steps in which the first failing
step aborts the remainder and its exit status becomes the script's exit
status; `su` passes the inner shell's exit status through.  `runFailFast`
gives that sequential bash semantics: an `outcome` assigns each step either
success (none) or failure with its exit status (some c, c nonzero for a
real failure); the run returns the list of steps actually executed and the
final exit status.
-/

def runFailFast (outcome : String → Option Nat) : List String → List String × Nat
  | [] => ([], 0)
  | s :: rest =>
      match outcome s with
      | some c => ([s], c)
      | none =>
          let r := runFailFast outcome rest
          (s :: r.1, r.2)

/-- The ordered steps of the deploy-api script of the active stack
(src/lib/web-infra-stack.ts lines 86-136), with the steps of the inner
su block flattened in place. -/
def deployApiSteps : List String :=
  ["mkdir -p /home/ec2-user/firenze-api",
   "chown ec2-user:ec2-user /home/ec2-user/firenze-api",
   "fetch github token from secrets manager",
   "git sync (clone or set-url + pull)",
   "chmod +x scripts/deploy-ec2.sh",
   "./scripts/deploy-ec2.sh",
   "pm2 save (as ec2-user)",
   "pm2 startup systemd -u ec2-user",
   "pm2 save (as root)"]

theorem runFailFast_zero_iff (outcome : String → Option Nat)
    (h : ∀ s c, outcome s = some c → c ≠ 0) (l : List String) :
    (runFailFast outcome l).2 = 0 ↔ ∀ s ∈ l, outcome s = none := by
  induction l with
  | nil => simp [runFailFast]
  | cons a rest ih =>
      cases ha : outcome a with
      | some c =>
          simp only [runFailFast, ha]
          constructor
          · intro hc; exact absurd hc (h a c ha)
          · intro hall
            have := hall a (by simp)
            rw [ha] at this
            exact absurd this (by simp)
      | none =>
          simp [runFailFast, ha, ih]

theorem runFailFast_first_fail (outcome : String → Option Nat)
    (s : String) (c : Nat) (hs : outcome s = some c) :
    ∀ (pre post : List String), (∀ t ∈ pre, outcome t = none) →
      runFailFast outcome (pre ++ s :: post) = (pre ++ [s], c) := by
  intro pre
  induction pre with
  | nil => intro post _; simp [runFailFast, hs]
  | cons a as ih =>
      intro post hpre
      have ha : outcome a = none := hpre a (by simp)
      have hrec := ih post (fun t ht => hpre t (by simp [ht]))
      simp [runFailFast, ha, hrec]

/-- C6: the deploy-api procedure is fail-fast and first-error-wins.  For
every assignment of outcomes to its steps (failures carrying a nonzero
status): the exit status is 0 exactly when every step succeeds; and if the
steps split as pre ++ s :: post with all of pre succeeding and s failing
with status c, then exactly the steps up to and including s execute, the
remaining steps are aborted, and the procedure's exit status is c, which is
nonzero. -/
theorem deploy_api_fail_fast (outcome : String → Option Nat)
    (h : ∀ s c, outcome s = some c → c ≠ 0) :
    ((runFailFast outcome deployApiSteps).2 = 0 ↔ ∀ s ∈ deployApiSteps, outcome s = none)
    ∧ (∀ pre s post, deployApiSteps = pre ++ s :: post →
        (∀ t ∈ pre, outcome t = none) → ∀ c, outcome s = some c →
          runFailFast outcome deployApiSteps = (pre ++ [s], c) ∧ c ≠ 0) := by
  constructor
  · exact runFailFast_zero_iff outcome h deployApiSteps
  · intro pre s post hsplit hpre c hc
    refine ⟨?_, h s c hc⟩
    rw [hsplit]
    exact runFailFast_first_fail outcome s c hc pre post hpre

/-- A concrete outcome assignment: the git sync step fails with status 128,
every other step succeeds. -/
def gitSyncFails : String → Option Nat :=
  fun s => if s = "git sync (clone or set-url + pull)" then some 128 else none

/-- C6 witness: with the git sync step failing at status 128, exactly the
first four steps execute and the exit status is 128. -/
theorem deploy_api_fail_fast_witness :
    runFailFast gitSyncFails deployApiSteps =
      (["mkdir -p /home/ec2-user/firenze-api",
        "chown ec2-user:ec2-user /home/ec2-user/firenze-api",
        "fetch github token from secrets manager",
        "git sync (clone or set-url + pull)"], 128)
    ∧ (128 : Nat) ≠ 0 := by
  have h := deploy_api_fail_fast gitSyncFails ?hz
  case hz =>
    intro s c hc
    unfold gitSyncFails at hc
    split at hc
    · injection hc with hc2; omega
    · exact absurd hc (by simp)
  exact h.2
    ["mkdir -p /home/ec2-user/firenze-api",
     "chown ec2-user:ec2-user /home/ec2-user/firenze-api",
     "fetch github token from secrets manager"]
    "git sync (clone or set-url + pull)"
    ["chmod +x scripts/deploy-ec2.sh",
     "./scripts/deploy-ec2.sh",
     "pm2 save (as ec2-user)",
     "pm2 startup systemd -u ec2-user",
     "pm2 save (as root)"]
    rfl (by decide) 128 (by decide)

/-!
Part 4 models the account each bootstrap step runs under, from the userData
commands and the deploy-api script of the active stack
(src/lib/web-infra-stack.ts lines 79-142).  cloud-init runs the userData
commands and the deploy-api script as root; exactly the commands inside the
`su - ec2-user -c "..."` block run as ec2-user.  Each step carries the kind
the claim speaks about. -/

inductive Account where
  | root
  | ec2User
deriving DecidableEq, BEq

inductive StepKind where
  | packageInstall
  | ownershipChange
  | bootRegistration
  | credentialFetch
  | sourceSync
  | buildDelegation
  | processPersistence
  | dirCreation
  | permissionBit
deriving DecidableEq, BEq

structure BootStep where
  cmd : String
  kind : StepKind
  runAs : Account
deriving DecidableEq

/-- The bootstrap steps in source order: userData commands run by cloud-init
as root, then the deploy-api script (run as root on first boot), with the
inner su-block commands attributed to ec2-user. -/
def bootstrapSteps : List BootStep :=
  [⟨"yum update -y", StepKind.packageInstall, Account.root⟩,
   ⟨"curl -sL https://rpm.nodesource.com/setup_20.x | bash -", StepKind.packageInstall, Account.root⟩,
   ⟨"yum install -y nodejs git jq", StepKind.packageInstall, Account.root⟩,
   ⟨"npm install -g pnpm pm2", StepKind.packageInstall, Account.root⟩,
   ⟨"mkdir -p /home/ec2-user/firenze-api", StepKind.dirCreation, Account.root⟩,
   ⟨"chown ec2-user:ec2-user /home/ec2-user/firenze-api", StepKind.ownershipChange, Account.root⟩,
   ⟨"aws secretsmanager get-secret-value --secret-id github-token", StepKind.credentialFetch, Account.ec2User⟩,
   ⟨"git clone, or git remote set-url + git pull", StepKind.sourceSync, Account.ec2User⟩,
   ⟨"chmod +x scripts/deploy-ec2.sh", StepKind.permissionBit, Account.ec2User⟩,
   ⟨"./scripts/deploy-ec2.sh", StepKind.buildDelegation, Account.ec2User⟩,
   ⟨"pm2 save", StepKind.processPersistence, Account.ec2User⟩,
   ⟨"pm2 startup systemd -u ec2-user --hp /home/ec2-user", StepKind.bootRegistration, Account.root⟩,
   ⟨"pm2 save", StepKind.processPersistence, Account.root⟩]

/-- The step kinds the claim calls privileged: package installation,
ownership changes, boot-time supervisor registration. -/
def privilegedKind : StepKind → Bool
  | StepKind.packageInstall => true
  | StepKind.ownershipChange => true
  | StepKind.bootRegistration => true
  | _ => false

/-- The step kinds the claim calls application-level: credential fetch via
the instance identity, source synchronization, build delegation. -/
def applicationKind : StepKind → Bool
  | StepKind.credentialFetch => true
  | StepKind.sourceSync => true
  | StepKind.buildDelegation => true
  | _ => false

/-- C9: in the bootstrap procedure every privileged step (package install,
ownership change, boot-time registration) runs as root and every
application-level step (credential fetch, source sync, build delegation)
runs as ec2-user; both families are non-empty in the procedure. -/
theorem bootstrap_privilege_separation :
    (bootstrapSteps.all fun s => !privilegedKind s.kind || (s.runAs == Account.root)) = true
    ∧ (bootstrapSteps.all fun s => !applicationKind s.kind || (s.runAs == Account.ec2User)) = true
    ∧ (bootstrapSteps.any fun s => privilegedKind s.kind) = true
    ∧ (bootstrapSteps.any fun s => applicationKind s.kind) = true := by
  decide

/-!
Part 5 models the Amplify customRules list declared by the active stack
(src/lib/web-infra-stack.ts lines 186-196).  The list is the same for every
environment: six static-asset rules followed by the SPA catch-all fallback.
The rule-pattern semantics (external, supplied by the hosting service) is
the one the spec scenario describes: a source pattern with a trailing
wildcard token matches every path that starts with the pattern's literal
part; a pattern without a wildcard matches exactly; the first matching rule
in list order applies.
-/

/-- listStartsWith p l : the list l starts with the segment p. -/
def listStartsWith : List Char → List Char → Bool
  | [], _ => true
  | _ :: _, [] => false
  | a :: as, b :: bs => a == b && listStartsWith as bs

structure CustomRule where
  source : String
  target : String
  status : String
deriving DecidableEq

/-- The customRules list of the Amplify app, in declaration order
(src/lib/web-infra-stack.ts lines 186-196). -/
def customRules : List CustomRule :=
  [⟨"/assets/<*>", "/assets/<*>", "200"⟩,
   ⟨"/images/<*>", "/images/<*>", "200"⟩,
   ⟨"/videos/<*>", "/videos/<*>", "200"⟩,
   ⟨"/.well-known/<*>", "/.well-known/<*>", "200"⟩,
   ⟨"/favicon.ico", "/favicon.ico", "200"⟩,
   ⟨"/robots.txt", "/robots.txt", "200"⟩,
   ⟨"/<*>", "/index.html", "200"⟩]

/-- A source pattern ending in the wildcard token matches every path
beginning with its literal part; any other pattern matches exactly. -/
def sourceMatches (pattern path : String) : Bool :=
  cond (listStartsWith ['>', '*', '<'] pattern.data.reverse)
    (listStartsWith (pattern.data.take (pattern.data.length - 3)) path.data)
    (pattern == path)

/-- The first rule in list order whose source pattern matches the path. -/
def firstMatch (rules : List CustomRule) (path : String) : Option CustomRule :=
  rules.find? fun r => sourceMatches r.source path

def assetsRule : CustomRule := ⟨"/assets/<*>", "/assets/<*>", "200"⟩

def spaFallbackRule : CustomRule := ⟨"/<*>", "/index.html", "200"⟩

/-- C7: every non-catch-all rule of customRules appears (and so is
evaluated) before the catch-all fallback rule, and every request path under
/assets/ matches the assets rule — which is not the catch-all — rather than
falling through to it. -/
theorem asset_rules_before_catchall :
    (∀ r ∈ customRules, r.source ≠ "/<*>" →
        customRules.indexOf r < customRules.indexOf spaFallbackRule)
    ∧ (∀ path : String, listStartsWith "/assets/".data path.data = true →
        firstMatch customRules path = some assetsRule ∧ assetsRule ≠ spaFallbackRule) := by
  constructor
  · decide
  · intro path hp
    refine ⟨?_, by decide⟩
    have hm : sourceMatches "/assets/<*>" path = true := hp
    unfold firstMatch customRules
    rw [List.find?_cons_of_pos]
    · rfl
    · exact hm

/-- C7 witness: the concrete request path /assets/app.js resolves to the
assets rule, which precedes the catch-all. -/
theorem asset_rules_before_catchall_witness :
    customRules.indexOf assetsRule < customRules.indexOf spaFallbackRule
    ∧ firstMatch customRules "/assets/app.js" = some assetsRule := by
  have h := asset_rules_before_catchall
  exact ⟨h.1 assetsRule (by decide) (by decide), (h.2 "/assets/app.js" (by decide)).1⟩

/-!
Part 6 models the shared-listener routing rule declared per environment by
the V4 stack variant (src/unnamed/part_000 lines 350-370) — the only
variant in the repository that attaches listener rules.  Every
environment's stack attaches one CfnListenerRule to the same hardcoded
HTTPS listener, with priority 10 for prod and 20 for every other
environment. -/

structure ListenerRule where
  listenerArn : String
  priority : Nat
  hostHeader : String
deriving DecidableEq

def httpsListenerArn : String :=
  "arn:aws:elasticloadbalancing:eu-west-2:970547365389:listener/app/firenze-webapi-lb/2247a915d05f217e/4d18e5818f2b8930"

/-- The listener rule an environment's stack attaches to the shared HTTPS
listener (src/unnamed/part_000 lines 353-370). -/
def apiListenerRule (envName : String) : ListenerRule :=
  { listenerArn := httpsListenerArn
  , priority := if envName = "prod" then 10 else 20
  , hostHeader := "api." ++ envName ++ ".firenzegroup.co" }

/-- C8 counterexample: the distinct environment names "dev" and "staging"
both attach their rule to the same shared listener with the same priority
20 — priorities are not unique across rules sharing the listener. -/
theorem listener_priorities_collide :
    ("dev" : String) ≠ "staging"
    ∧ (apiListenerRule "dev").listenerArn = (apiListenerRule "staging").listenerArn
    ∧ (apiListenerRule "dev").priority = (apiListenerRule "staging").priority := by
  refine ⟨by decide, rfl, rfl⟩

/-- C8 (amended): two distinct environments sharing the HTTPS listener have
distinct rule priorities exactly when one of the two is prod (priorities
are 10 for prod, 20 for everything else). -/
theorem listener_priority_unique_iff (e1 e2 : String) (h : e1 ≠ e2) :
    (apiListenerRule e1).priority ≠ (apiListenerRule e2).priority
      ↔ (e1 = "prod" ∨ e2 = "prod") := by
  unfold apiListenerRule
  by_cases h1 : e1 = "prod" <;> by_cases h2 : e2 = "prod" <;> simp [h1, h2]
  exact absurd (h1.trans h2.symm) h

/-- C8 witness: prod and dev receive distinct priorities. -/
theorem listener_priority_unique_iff_witness :
    (apiListenerRule "prod").priority ≠ (apiListenerRule "dev").priority
      ↔ (("prod" : String) = "prod" ∨ ("dev" : String) = "prod") :=
  listener_priority_unique_iff "prod" "dev" (by decide)
